import Mathlib

/-!
Shallow embedding of `olympiabhub/api.py` (the `OlympiaAPI` client) and
verification of its specification.

The Python module is a thin synchronous wrapper over the `requests` library:
it builds headers, dispatches one HTTP request per call (optionally through a
proxy), and classifies transport failures into Python exceptions
(`ConnectionError`, `TimeoutError`, `ValueError`, `RuntimeError`).  We model
JSON values, the environment, the transport outcome of the single request a
call issues, and each method of the class as a pure Lean function from those
inputs.  Network behaviour is represented by a `TransportResult` argument: the
outcome the underlying `requests` call would produce for the dispatched
request.  The list of dispatched requests is returned explicitly so that
"issues zero network calls" is a statement about the model.
-/

namespace Olympia

/-- JSON values, as produced by `response.json()` and accepted by the `json=`
keyword of `requests.request`.  Objects keep their key order, as Python dicts
do. -/
inductive Json where
  | str (s : String)
  | num (n : Int)
  | bool (b : Bool)
  | null
  | arr (xs : List Json)
  | obj (fields : List (String × Json))

/-- A Python value that can appear as an element of the `texts` argument of
`create_embedding`; only its `isinstance(·, str)` status and its payload
matter to the code. -/
inductive PyVal where
  | str (s : String)
  | int (n : Int)
  | noneV
deriving DecidableEq, Repr

/-- `isinstance(text, str)` for an element of `texts`. -/
def PyVal.isStr : PyVal → Bool
  | .str _ => true
  | _ => false

/-- Conversion of a `texts` element to the JSON value `requests` would
serialize it to (only reached after validation, hence on strings). -/
def PyVal.toJson : PyVal → Json
  | .str s => .str s
  | .int n => .num n
  | .noneV => .null

/-- The Python exceptions the module raises.  `valueError` covers the
spec's `RequestRejected`, `ValidationError` and `ConfigurationError` (the
source raises `ValueError` for all three); `connectionError` is the spec's
`ConnectionFailure`, `timeoutError` is `TimeoutFailure`, `runtimeError` is
the `RequestError` catch-all; `keyError`/`typeError` are the propagated
lookup failures of `result["modèles"]`. -/
inductive PyErr where
  | connectionError (msg : String)
  | timeoutError (msg : String)
  | valueError (msg : String)
  | runtimeError (msg : String)
  | keyError (key : String)
  | typeError (msg : String)

/-- The process environment read by `OlympiaAPI.__init__` via `os.getenv`:
`none` means the variable is unset. -/
structure Env where
  OLYMPIA_API_KEY : Option String
  OLYMPIA_API_TOKEN : Option String
  PROXY : Option String

/-- Python truthiness of an optional string: `None` and `""` are falsy. -/
def pyTruthy : Option String → Bool
  | none => false
  | some s => !(s == "")

/-- Python `a or b` on optional strings: the first operand when truthy,
otherwise the second. -/
def pyOr (a b : Option String) : Option String :=
  if pyTruthy a then a else b

/-- The fixed user agent string `self.nubonyxia_user_agent` set by
`__init__`. -/
def nubonyxiaUserAgent : String :=
  "Mozilla/5.0 (Windows NT 10.0; Win64; x64; rv:102.0) Gecko/20100101 Firefox/102.0"

/-- The fixed base URL `self.base_url` set by `__init__`. -/
def baseUrl : String := "https://api.olympia.bhub.cloud"

/-- The state of a constructed `OlympiaAPI` client. -/
structure OlympiaAPI where
  token : String
  model : String
  base_url : String
  nubonyxia_proxy : Option String
  nubonyxia_user_agent : String

/-- `OlympiaAPI.__init__`: resolves the token as
`token or os.getenv("OLYMPIA_API_KEY") or os.getenv("OLYMPIA_API_TOKEN")`,
raises `ValueError` when the result is falsy, and otherwise stores the
resolved token, the model, the fixed base URL, the proxy resolved as
`proxy or os.getenv("PROXY")`, and the fixed user agent. -/
def OlympiaAPI.init (model : String) (token : Option String)
    (proxy : Option String) (env : Env) : Except PyErr OlympiaAPI :=
  let tok := pyOr (pyOr token env.OLYMPIA_API_KEY) env.OLYMPIA_API_TOKEN
  if pyTruthy tok then
    .ok { token := tok.getD ""
          model := model
          base_url := baseUrl
          nubonyxia_proxy := pyOr proxy env.PROXY
          nubonyxia_user_agent := nubonyxiaUserAgent }
  else
    .error (.valueError
      "Token is required. Set OLYMPIA_API_KEY/OLYMPIA_API_TOKEN or pass as parameter.")

/-- `OlympiaAPI._get_headers`: the literal dict the source builds (note the
lower-case `accept` key in the source). -/
def OlympiaAPI.get_headers (c : OlympiaAPI) : List (String × String) :=
  [("accept", "application/json"),
   ("Authorization", "Bearer " ++ c.token),
   ("Content-Type", "application/json")]

/-- A transport-layer exception raised by `session.request(...)` itself.
The variants mirror the `requests.exceptions` class hierarchy:
`ConnectTimeout` is declared there as
`class ConnectTimeout(ConnectionError, Timeout)`, i.e. it is a subclass of
both `ConnectionError` and `Timeout`; `ReadTimeout` is a `Timeout` only;
every variant is a subclass of `RequestException`. -/
inductive TransportExc where
  | connectionError (msg : String)
  | connectTimeout (msg : String)
  | readTimeout (msg : String)
  | otherRequestException (msg : String)
deriving DecidableEq, Repr

/-- The message carried by the exception (its `str(e)`). -/
def TransportExc.msg : TransportExc → String
  | .connectionError m => m
  | .connectTimeout m => m
  | .readTimeout m => m
  | .otherRequestException m => m

/-- `isinstance(e, requests.exceptions.ConnectionError)`. -/
def TransportExc.isConnectionError : TransportExc → Bool
  | .connectionError _ => true
  | .connectTimeout _ => true
  | _ => false

/-- `isinstance(e, requests.exceptions.Timeout)`. -/
def TransportExc.isTimeout : TransportExc → Bool
  | .connectTimeout _ => true
  | .readTimeout _ => true
  | _ => false

/-- An HTTP response as seen by the client: status code, reason phrase, final
URL, body text, and the result of parsing the body as JSON (`none` when
`response.json()` would raise `JSONDecodeError`). -/
structure HttpResponse where
  statusCode : Nat
  reason : String
  url : String
  text : String
  jsonBody : Option Json

/-- Outcome of the single `session.request(...)` call a dispatch performs:
either a response object, or a transport exception. -/
inductive TransportResult where
  | response (r : HttpResponse)
  | exc (e : TransportExc)

/-- Model of `requests.Response.raise_for_status` (requests `models.py`):
it builds an `HTTPError` message for `400 <= status_code < 500`
("Client Error") and `500 <= status_code < 600` ("Server Error"), and raises
nothing for any other status.  Returns the message of the `HTTPError` it
would raise, or `none`. -/
def raiseForStatus (r : HttpResponse) : Option String :=
  if 400 ≤ r.statusCode ∧ r.statusCode < 500 then
    some (toString r.statusCode ++ " Client Error: " ++ r.reason
          ++ " for url: " ++ r.url)
  else if 500 ≤ r.statusCode ∧ r.statusCode < 600 then
    some (toString r.statusCode ++ " Server Error: " ++ r.reason
          ++ " for url: " ++ r.url)
  else
    none

/-- The message of the `requests.exceptions.JSONDecodeError` raised by
`response.json()` on an unparsable body (a `RequestException` subclass in
requests since 2.27). -/
def jsonDecodeErrorMsg : String := "Expecting value: line 1 column 1 (char 0)"

/-- Model of `requests.Response.__bool__` (requests `models.py`): truthiness
of a response object is `self.ok`, which is true exactly when
`raise_for_status` would not raise, i.e. when the status code is below
400. -/
def responseBool (r : HttpResponse) : Bool :=
  r.statusCode < 400

/-- The request actually handed to the transport: method, absolute URL,
headers, JSON body, the `session.proxies` mapping in effect, and the
`User-Agent` installed in the proxy manager's `proxy_headers` (when any). -/
structure Dispatch where
  method : String
  url : String
  headers : List (String × String)
  jsonData : Option Json
  proxies : List (String × String)
  proxyUserAgent : Option String

/-- Result of a call to `_make_request`: the requests dispatched to the
transport (empty when the call never reaches the network), the value
returned or exception raised, and the `logger.error` lines emitted. -/
structure CallResult where
  dispatched : List Dispatch
  result : Except PyErr Json
  logs : List String

/-- The `Dispatch` `_make_request` builds before the `try` block: URL is
`f"{self.base_url}/{endpoint}"`; when `use_proxy and self.nubonyxia_proxy`
the session proxies are set to the proxy address for both `"http"` and
`"https"` and the proxy manager's `proxy_headers` gain the fixed
`User-Agent`; otherwise no proxy configuration is applied. -/
def OlympiaAPI.dispatchOf (c : OlympiaAPI) (method endpoint : String)
    (data : Option Json) (use_proxy : Bool) : Dispatch :=
  let proxyActive := use_proxy && pyTruthy c.nubonyxia_proxy
  { method := method
    url := c.base_url ++ "/" ++ endpoint
    headers := c.get_headers
    jsonData := data
    proxies := if proxyActive then
        [("http", c.nubonyxia_proxy.getD ""), ("https", c.nubonyxia_proxy.getD "")]
      else []
    proxyUserAgent := if proxyActive then some c.nubonyxia_user_agent else none }

/-- `OlympiaAPI._make_request`: dispatches one request and maps the outcome
through the `try/except` chain of the source, in order:
`except requests.exceptions.ConnectionError` →
log `"Connection error: ..."`, raise `ConnectionError("Failed to connect: ...")`;
`except requests.exceptions.Timeout` →
log `"Timeout error: ..."`, raise `TimeoutError("Request timed out: ...")`;
`except requests.exceptions.HTTPError` (from `response.raise_for_status()`) →
log `f"HTTP error: {e}, Response: {response.text if response else 'No response'}"`
(the conditional tests `Response.__bool__`, i.e. `response.ok`, which is
false for every status this branch handles, so the else arm is taken), and
raise `ValueError("HTTP error occurred: ...")`;
`except requests.exceptions.RequestException` →
log `"Request error: ..."`, raise `RuntimeError("Request failed: ...")`.
On success the parsed JSON body is returned as-is. -/
def OlympiaAPI.make_request (c : OlympiaAPI) (method endpoint : String)
    (data : Option Json) (use_proxy : Bool)
    (transport : TransportResult) : CallResult :=
  let d := c.dispatchOf method endpoint data use_proxy
  match transport with
  | .exc e =>
    if e.isConnectionError then
      { dispatched := [d]
        result := .error (.connectionError ("Failed to connect: " ++ e.msg))
        logs := ["Connection error: " ++ e.msg] }
    else if e.isTimeout then
      { dispatched := [d]
        result := .error (.timeoutError ("Request timed out: " ++ e.msg))
        logs := ["Timeout error: " ++ e.msg] }
    else
      { dispatched := [d]
        result := .error (.runtimeError ("Request failed: " ++ e.msg))
        logs := ["Request error: " ++ e.msg] }
  | .response r =>
    match raiseForStatus r with
    | some httpMsg =>
      { dispatched := [d]
        result := .error (.valueError ("HTTP error occurred: " ++ httpMsg))
        logs := ["HTTP error: " ++ httpMsg ++ ", Response: "
          ++ (if responseBool r then r.text else "No response")] }
    | none =>
      match r.jsonBody with
      | some j => { dispatched := [d], result := .ok j, logs := [] }
      | none =>
        { dispatched := [d]
          result := .error (.runtimeError ("Request failed: " ++ jsonDecodeErrorMsg))
          logs := ["Request error: " ++ jsonDecodeErrorMsg] }

/-- `OlympiaAPI.Chat`: POST to `generate` with body
`{"model": self.model, "prompt": prompt}`, no proxy. -/
def OlympiaAPI.Chat (c : OlympiaAPI) (prompt : String)
    (transport : TransportResult) : CallResult :=
  c.make_request "POST" "generate"
    (some (.obj [("model", .str c.model), ("prompt", .str prompt)])) false transport

/-- `OlympiaAPI.ChatNubonyxia`: same as `Chat` with `use_proxy=True`. -/
def OlympiaAPI.ChatNubonyxia (c : OlympiaAPI) (prompt : String)
    (transport : TransportResult) : CallResult :=
  c.make_request "POST" "generate"
    (some (.obj [("model", .str c.model), ("prompt", .str prompt)])) true transport

/-- The `ValueError` message of the embedding input validation. -/
def embeddingValidationMsg : String := "Texts must be a non-empty list of strings"

/-- `OlympiaAPI.create_embedding`: raises `ValueError` when
`not texts or not all(isinstance(text, str) for text in texts)`, otherwise
POSTs to `embedding` with body `{"model": self.model, "texts": texts}`,
no proxy. -/
def OlympiaAPI.create_embedding (c : OlympiaAPI) (texts : List PyVal)
    (transport : TransportResult) : CallResult :=
  if texts.isEmpty || !(texts.all PyVal.isStr) then
    { dispatched := [], result := .error (.valueError embeddingValidationMsg), logs := [] }
  else
    c.make_request "POST" "embedding"
      (some (.obj [("model", .str c.model), ("texts", .arr (texts.map PyVal.toJson))]))
      false transport

/-- `OlympiaAPI.create_embedding_nubonyxia`: same validation, then the POST
with `use_proxy=True`. -/
def OlympiaAPI.create_embedding_nubonyxia (c : OlympiaAPI) (texts : List PyVal)
    (transport : TransportResult) : CallResult :=
  if texts.isEmpty || !(texts.all PyVal.isStr) then
    { dispatched := [], result := .error (.valueError embeddingValidationMsg), logs := [] }
  else
    c.make_request "POST" "embedding"
      (some (.obj [("model", .str c.model), ("texts", .arr (texts.map PyVal.toJson))]))
      true transport

/-- Python subscript `value[key]` on a JSON value: a `KeyError` when the key
is absent from a dict, a `TypeError` when the value is not a dict. -/
def jsonGetItem (j : Json) (key : String) : Except PyErr Json :=
  match j with
  | .obj fields =>
    match fields.lookup key with
    | some v => .ok v
    | none => .error (.keyError key)
  | _ => .error (.typeError "value is not subscriptable by a string key")

/-- `OlympiaAPI.get_llm_models`: GET `modeles` (proxy per the flag), then
subscript the result with the literal key `"modèles"`. -/
def OlympiaAPI.get_llm_models (c : OlympiaAPI) (use_proxy : Bool)
    (transport : TransportResult) : CallResult :=
  let res := c.make_request "GET" "modeles" none use_proxy transport
  { res with result := res.result.bind (fun j => jsonGetItem j "modèles") }

/-- `OlympiaAPI.get_embedding_models`: GET `embedding/models` (proxy per the
flag), then subscript the result with the literal key `"modèles"`. -/
def OlympiaAPI.get_embedding_models (c : OlympiaAPI) (use_proxy : Bool)
    (transport : TransportResult) : CallResult :=
  let res := c.make_request "GET" "embedding/models" none use_proxy transport
  { res with result := res.result.bind (fun j => jsonGetItem j "modèles") }

/-- A sample constructed client used by concrete counterexamples and
witnesses: `OlympiaAPI(model="m", token="tok")` with no proxy anywhere. -/
def sampleClient : OlympiaAPI :=
  { token := "tok"
    model := "m"
    base_url := baseUrl
    nubonyxia_proxy := none
    nubonyxia_user_agent := nubonyxiaUserAgent }

/-- A sample constructed client with a proxy configured. -/
def proxyClient : OlympiaAPI :=
  { token := "tok"
    model := "m"
    base_url := baseUrl
    nubonyxia_proxy := some "proxy.example:3128"
    nubonyxia_user_agent := nubonyxiaUserAgent }

/-- `isPrefixOfChars p s`: `p` is a prefix of `s`. -/
def isPrefixOfChars : List Char → List Char → Bool
  | [], _ => true
  | _ :: _, [] => false
  | a :: as, b :: bs => a == b && isPrefixOfChars as bs

/-- `containsSubChars needle s`: `needle` occurs contiguously in `s`. -/
def containsSubChars (needle : List Char) : List Char → Bool
  | [] => isPrefixOfChars needle []
  | s@(_ :: rest) => isPrefixOfChars needle s || containsSubChars needle rest

/-- Substring test on strings (does `hay` contain `needle`), used to state
what information a message does or does not carry. -/
def strContains (hay needle : String) : Bool :=
  containsSubChars needle.data hay.data

/-- ASCII lower-casing of one character. -/
def asciiLower (ch : Char) : Char :=
  if 65 ≤ ch.toNat ∧ ch.toNat ≤ 90 then Char.ofNat (ch.toNat + 32) else ch

/-- HTTP header-field names are case-insensitive; this is equality of names
up to ASCII case. -/
def eqCaseInsensitive (a b : String) : Bool :=
  a.data.map asciiLower == b.data.map asciiLower

/-! ## Helper lemmas -/

/-- A truthy optional string is `some` of its own default-extraction. -/
theorem pyTruthy_some (o : Option String) (h : pyTruthy o = true) :
    o = some (o.getD "") := by
  cases o with
  | none => simp [pyTruthy] at h
  | some s => rfl

/-- Every call to `_make_request` dispatches exactly the one request built
before the `try` block, whatever the transport outcome. -/
theorem make_request_dispatched (c : OlympiaAPI) (method endpoint : String)
    (data : Option Json) (use_proxy : Bool) (transport : TransportResult) :
    (c.make_request method endpoint data use_proxy transport).dispatched =
      [c.dispatchOf method endpoint data use_proxy] := by
  cases transport with
  | exc e =>
    by_cases h1 : e.isConnectionError = true <;>
      by_cases h2 : e.isTimeout = true <;>
        simp [OlympiaAPI.make_request, h1, h2]
  | response r =>
    cases hrs : raiseForStatus r with
    | some m => simp [OlympiaAPI.make_request, hrs]
    | none =>
      cases hb : r.jsonBody <;> simp [OlympiaAPI.make_request, hrs, hb]

/-! ## Claims -/

/-- C7: `_get_headers` returns exactly three headers — `accept`
(`Accept` up to HTTP header-name case-insensitivity) with value
`application/json`, `Authorization` with value `Bearer <token>` for the
stored token, and `Content-Type` with value `application/json` — and is a
pure function of the client state (its value is fully determined by the
equation below, so two calls on the same client are equal). -/
theorem headers_exact (c : OlympiaAPI) :
    c.get_headers =
      [("accept", "application/json"),
       ("Authorization", "Bearer " ++ c.token),
       ("Content-Type", "application/json")] ∧
    (c.get_headers.map Prod.fst = ["accept", "Authorization", "Content-Type"] ∧
      eqCaseInsensitive "accept" "Accept" = true) ∧
    c.get_headers.length = 3 := by
  exact ⟨rfl, ⟨rfl, by decide⟩, rfl⟩

/-- C6: construction resolves the token as the explicit argument, else
`OLYMPIA_API_KEY`, else `OLYMPIA_API_TOKEN` (Python truthiness: unset and
empty are skipped); when no source is truthy it raises the configuration
`ValueError`, and otherwise it stores the first truthy source's value. -/
theorem construction_token_resolution (model : String)
    (tokenArg proxy : Option String) (env : Env) :
    (pyTruthy tokenArg = true →
      ∃ c, OlympiaAPI.init model tokenArg proxy env = .ok c ∧
        some c.token = tokenArg) ∧
    (pyTruthy tokenArg = false → pyTruthy env.OLYMPIA_API_KEY = true →
      ∃ c, OlympiaAPI.init model tokenArg proxy env = .ok c ∧
        some c.token = env.OLYMPIA_API_KEY) ∧
    (pyTruthy tokenArg = false → pyTruthy env.OLYMPIA_API_KEY = false →
      pyTruthy env.OLYMPIA_API_TOKEN = true →
      ∃ c, OlympiaAPI.init model tokenArg proxy env = .ok c ∧
        some c.token = env.OLYMPIA_API_TOKEN) ∧
    (pyTruthy tokenArg = false → pyTruthy env.OLYMPIA_API_KEY = false →
      pyTruthy env.OLYMPIA_API_TOKEN = false →
      OlympiaAPI.init model tokenArg proxy env = .error (.valueError
        "Token is required. Set OLYMPIA_API_KEY/OLYMPIA_API_TOKEN or pass as parameter.")) := by
  refine ⟨?_, ?_, ?_, ?_⟩
  · intro h1
    exact ⟨⟨tokenArg.getD "", model, baseUrl, pyOr proxy env.PROXY, nubonyxiaUserAgent⟩,
      by simp [OlympiaAPI.init, pyOr, h1], (pyTruthy_some _ h1).symm⟩
  · intro h1 h2
    exact ⟨⟨env.OLYMPIA_API_KEY.getD "", model, baseUrl, pyOr proxy env.PROXY,
        nubonyxiaUserAgent⟩,
      by simp [OlympiaAPI.init, pyOr, h1, h2], (pyTruthy_some _ h2).symm⟩
  · intro h1 h2 h3
    exact ⟨⟨env.OLYMPIA_API_TOKEN.getD "", model, baseUrl, pyOr proxy env.PROXY,
        nubonyxiaUserAgent⟩,
      by simp [OlympiaAPI.init, pyOr, h1, h2, h3], (pyTruthy_some _ h3).symm⟩
  · intro h1 h2 h3
    simp [OlympiaAPI.init, pyOr, h1, h2, h3]

/-- Witness for C6 at a concrete input: no explicit token, `OLYMPIA_API_KEY`
set to `"k"`, `OLYMPIA_API_TOKEN` set to `"t"`: construction succeeds and
stores `"k"`. -/
theorem construction_token_resolution_witness :
    ∃ c, OlympiaAPI.init "m" none none ⟨some "k", some "t", none⟩ = .ok c ∧
      some c.token = some "k" :=
  (construction_token_resolution "m" none none ⟨some "k", some "t", none⟩).2.1
    rfl (by decide)

/-- C3: with `use_proxy=True` and a truthy configured proxy address, the
dispatched request carries that address as the proxy for both `http` and
`https` and installs the client's fixed user agent as the proxy
`User-Agent`; with `use_proxy=True` but no truthy proxy, and with
`use_proxy=False`, the request is dispatched with no proxy configuration;
every constructed client's proxy user agent is the fixed legacy browser
string. -/
theorem proxy_routing (c : OlympiaAPI) (method endpoint : String)
    (data : Option Json) (transport : TransportResult) (p : String) :
    (c.nubonyxia_proxy = some p → p ≠ "" →
      (c.make_request method endpoint data true transport).dispatched =
        [{ method := method, url := c.base_url ++ "/" ++ endpoint,
           headers := c.get_headers, jsonData := data,
           proxies := [("http", p), ("https", p)],
           proxyUserAgent := some c.nubonyxia_user_agent }]) ∧
    (pyTruthy c.nubonyxia_proxy = false →
      (c.make_request method endpoint data true transport).dispatched =
        [{ method := method, url := c.base_url ++ "/" ++ endpoint,
           headers := c.get_headers, jsonData := data,
           proxies := [], proxyUserAgent := none }]) ∧
    ((c.make_request method endpoint data false transport).dispatched =
        [{ method := method, url := c.base_url ++ "/" ++ endpoint,
           headers := c.get_headers, jsonData := data,
           proxies := [], proxyUserAgent := none }]) ∧
    (∀ m t pr env c', OlympiaAPI.init m t pr env = .ok c' →
      c'.nubonyxia_user_agent = nubonyxiaUserAgent) := by
  refine ⟨?_, ?_, ?_, ?_⟩
  · intro hp hne
    rw [make_request_dispatched]
    have ht : pyTruthy (some p) = true := by
      simp [pyTruthy, hne]
    simp [OlympiaAPI.dispatchOf, hp, ht]
  · intro hf
    rw [make_request_dispatched]
    simp [OlympiaAPI.dispatchOf, hf]
  · rw [make_request_dispatched]
    simp [OlympiaAPI.dispatchOf]
  · intro m t pr env c' h
    unfold OlympiaAPI.init at h
    by_cases ht : pyTruthy (pyOr (pyOr t env.OLYMPIA_API_KEY) env.OLYMPIA_API_TOKEN) = true
    · simp [ht] at h
      rw [← h]
    · simp [ht] at h

/-- Witness for C3 at a concrete client with proxy `proxy.example:3128`:
the `use_proxy=True` dispatch routes both schemes through it and carries
the fixed user agent. -/
theorem proxy_routing_witness :
    (proxyClient.make_request "POST" "generate" none true
        (.exc (.connectionError "refused"))).dispatched =
      [{ method := "POST", url := baseUrl ++ "/" ++ "generate",
         headers := proxyClient.get_headers, jsonData := none,
         proxies := [("http", "proxy.example:3128"), ("https", "proxy.example:3128")],
         proxyUserAgent := some nubonyxiaUserAgent }] :=
  (proxy_routing proxyClient "POST" "generate" none
      (.exc (.connectionError "refused")) "proxy.example:3128").1 rfl (by decide)

/-- C4: `Chat` dispatches a POST to `{base_url}/generate` with body
`{"model": model, "prompt": prompt}` and no proxy; every constructed
client's base URL is the fixed `https://api.olympia.bhub.cloud`; and on any
2xx response the parsed JSON body is returned as-is. -/
theorem chat_success (c : OlympiaAPI) (prompt : String)
    (transport : TransportResult) :
    (c.Chat prompt transport).dispatched =
      [{ method := "POST", url := c.base_url ++ "/" ++ "generate",
         headers := c.get_headers,
         jsonData := some (.obj [("model", .str c.model), ("prompt", .str prompt)]),
         proxies := [], proxyUserAgent := none }] ∧
    (∀ m t pr env c', OlympiaAPI.init m t pr env = .ok c' →
      c'.base_url = "https://api.olympia.bhub.cloud") ∧
    (∀ r j, 200 ≤ r.statusCode → r.statusCode < 300 → r.jsonBody = some j →
      (c.Chat prompt (.response r)).result = .ok j) := by
  refine ⟨?_, ?_, ?_⟩
  · rw [OlympiaAPI.Chat, make_request_dispatched]
    simp [OlympiaAPI.dispatchOf]
  · intro m t pr env c' h
    unfold OlympiaAPI.init at h
    by_cases ht : pyTruthy (pyOr (pyOr t env.OLYMPIA_API_KEY) env.OLYMPIA_API_TOKEN) = true
    · simp [ht] at h
      rw [← h]
      rfl
    · simp [ht] at h
  · intro r j h1 h2 hb
    have hrs : raiseForStatus r = none := by
      unfold raiseForStatus
      have hc1 : ¬ (400 ≤ r.statusCode ∧ r.statusCode < 500) := by omega
      have hc2 : ¬ (500 ≤ r.statusCode ∧ r.statusCode < 600) := by omega
      simp [hc1, hc2]
    simp [OlympiaAPI.Chat, OlympiaAPI.make_request, hrs, hb]

/-- Witness for C4: a 200 response to `POST /generate` with parsed body
`{"response": "ok"}` is returned verbatim from `Chat("hi")`. -/
theorem chat_success_witness :
    (sampleClient.Chat "hi" (.response
        ⟨200, "OK", "https://api.olympia.bhub.cloud/generate", "",
         some (.obj [("response", .str "ok")])⟩)).result =
      .ok (.obj [("response", .str "ok")]) :=
  (chat_success sampleClient "hi" (.response
      ⟨200, "OK", "https://api.olympia.bhub.cloud/generate", "",
       some (.obj [("response", .str "ok")])⟩)).2.2
    ⟨200, "OK", "https://api.olympia.bhub.cloud/generate", "",
     some (.obj [("response", .str "ok")])⟩
    (.obj [("response", .str "ok")]) (by decide) (by decide) rfl

/-- C2: on an empty `texts` or one with a non-string element, both
`create_embedding` and `create_embedding_nubonyxia` raise the validation
`ValueError` and dispatch nothing; on a non-empty all-string `texts`, both
dispatch exactly one POST to the `embedding` endpoint with body
`{"model": model, "texts": texts}`. -/
theorem embedding_validation (c : OlympiaAPI) (texts : List PyVal)
    (transport : TransportResult) :
    ((texts.isEmpty = true ∨ texts.all PyVal.isStr = false) →
      c.create_embedding texts transport =
        { dispatched := [], result := .error (.valueError embeddingValidationMsg),
          logs := [] } ∧
      c.create_embedding_nubonyxia texts transport =
        { dispatched := [], result := .error (.valueError embeddingValidationMsg),
          logs := [] }) ∧
    (texts.isEmpty = false → texts.all PyVal.isStr = true →
      (c.create_embedding texts transport).dispatched =
        [c.dispatchOf "POST" "embedding"
          (some (.obj [("model", .str c.model),
                       ("texts", .arr (texts.map PyVal.toJson))])) false] ∧
      (c.create_embedding_nubonyxia texts transport).dispatched =
        [c.dispatchOf "POST" "embedding"
          (some (.obj [("model", .str c.model),
                       ("texts", .arr (texts.map PyVal.toJson))])) true]) := by
  constructor
  · intro h
    have hcond : (texts.isEmpty || !texts.all PyVal.isStr) = true := by
      rcases h with h | h <;> simp [h]
    constructor
    · unfold OlympiaAPI.create_embedding
      rw [if_pos hcond]
    · unfold OlympiaAPI.create_embedding_nubonyxia
      rw [if_pos hcond]
  · intro h1 h2
    have hcond : ¬ ((texts.isEmpty || !texts.all PyVal.isStr) = true) := by
      simp [h1, h2]
    constructor
    · unfold OlympiaAPI.create_embedding
      rw [if_neg hcond, make_request_dispatched]
    · unfold OlympiaAPI.create_embedding_nubonyxia
      rw [if_neg hcond, make_request_dispatched]

/-- Witness for C2: `create_embedding([])` raises the validation error with
no dispatch, and so does `create_embedding_nubonyxia(["a", 2])`. -/
theorem embedding_validation_witness :
    sampleClient.create_embedding [] (.exc (.connectionError "refused")) =
      { dispatched := [], result := .error (.valueError embeddingValidationMsg),
        logs := [] } ∧
    sampleClient.create_embedding_nubonyxia [PyVal.str "a", PyVal.int 2]
        (.exc (.connectionError "refused")) =
      { dispatched := [], result := .error (.valueError embeddingValidationMsg),
        logs := [] } :=
  ⟨((embedding_validation sampleClient []
      (.exc (.connectionError "refused"))).1 (Or.inl rfl)).1,
   ((embedding_validation sampleClient [PyVal.str "a", PyVal.int 2]
      (.exc (.connectionError "refused"))).1 (Or.inr rfl)).2⟩

/-- C10: validation only checks non-emptiness and `isinstance(·, str)`:
a list of strings containing the empty string passes validation and both
embedding methods behave exactly as the dispatching call, issuing one
request. -/
theorem empty_string_texts_dispatch (c : OlympiaAPI) (texts : List PyVal)
    (transport : TransportResult)
    (hmem : PyVal.str "" ∈ texts) (hstr : texts.all PyVal.isStr = true) :
    c.create_embedding texts transport =
      c.make_request "POST" "embedding"
        (some (.obj [("model", .str c.model),
                     ("texts", .arr (texts.map PyVal.toJson))])) false transport ∧
    c.create_embedding_nubonyxia texts transport =
      c.make_request "POST" "embedding"
        (some (.obj [("model", .str c.model),
                     ("texts", .arr (texts.map PyVal.toJson))])) true transport ∧
    (c.create_embedding texts transport).dispatched.length = 1 ∧
    (c.create_embedding_nubonyxia texts transport).dispatched.length = 1 := by
  have hne : texts.isEmpty = false := by
    cases texts with
    | nil => cases hmem
    | cons a as => rfl
  have hcond : ¬ ((texts.isEmpty || !texts.all PyVal.isStr) = true) := by
    simp [hne, hstr]
  refine ⟨?_, ?_, ?_, ?_⟩
  · unfold OlympiaAPI.create_embedding
    rw [if_neg hcond]
  · unfold OlympiaAPI.create_embedding_nubonyxia
    rw [if_neg hcond]
  · unfold OlympiaAPI.create_embedding
    rw [if_neg hcond, make_request_dispatched]
    rfl
  · unfold OlympiaAPI.create_embedding_nubonyxia
    rw [if_neg hcond, make_request_dispatched]
    rfl

/-- Witness for C10: `create_embedding([""])` dispatches one request rather
than raising the validation error. -/
theorem empty_string_texts_dispatch_witness :
    (sampleClient.create_embedding [PyVal.str ""]
        (.exc (.connectionError "refused"))).dispatched.length = 1 :=
  (empty_string_texts_dispatch sampleClient [PyVal.str ""]
      (.exc (.connectionError "refused"))
      (List.mem_singleton.mpr rfl) rfl).2.2.1

/-- C1 (amended): the failure taxonomy of `_make_request` under the actual
behaviour of `raise_for_status`: connection-level exceptions map to the
`ConnectionError` variant, timeouts that are not connection errors to
`TimeoutError`, 4xx/5xx statuses (not every non-2xx status) to the
HTTP-rejection `ValueError`, any other transport exception (including a
JSON decode failure) to the `RuntimeError` catch-all; a status below 400
with a parsable body is returned as-is; every call dispatches exactly one
request (no retries), and every failure is both raised and logged (nothing
is swallowed). -/
theorem make_request_failure_classification (c : OlympiaAPI)
    (method endpoint : String) (data : Option Json) (use_proxy : Bool) :
    (∀ e : TransportExc, e.isConnectionError = true →
      (c.make_request method endpoint data use_proxy (.exc e)).result =
        .error (.connectionError ("Failed to connect: " ++ e.msg))) ∧
    (∀ e : TransportExc, e.isConnectionError = false → e.isTimeout = true →
      (c.make_request method endpoint data use_proxy (.exc e)).result =
        .error (.timeoutError ("Request timed out: " ++ e.msg))) ∧
    (∀ e : TransportExc, e.isConnectionError = false → e.isTimeout = false →
      (c.make_request method endpoint data use_proxy (.exc e)).result =
        .error (.runtimeError ("Request failed: " ++ e.msg))) ∧
    (∀ r : HttpResponse, 400 ≤ r.statusCode → r.statusCode < 500 →
      (c.make_request method endpoint data use_proxy (.response r)).result =
        .error (.valueError ("HTTP error occurred: " ++
          (toString r.statusCode ++ " Client Error: " ++ r.reason
            ++ " for url: " ++ r.url)))) ∧
    (∀ r : HttpResponse, 500 ≤ r.statusCode → r.statusCode < 600 →
      (c.make_request method endpoint data use_proxy (.response r)).result =
        .error (.valueError ("HTTP error occurred: " ++
          (toString r.statusCode ++ " Server Error: " ++ r.reason
            ++ " for url: " ++ r.url)))) ∧
    (∀ r : HttpResponse, ∀ j, r.statusCode < 400 → r.jsonBody = some j →
      (c.make_request method endpoint data use_proxy (.response r)).result = .ok j) ∧
    (∀ r : HttpResponse, r.statusCode < 400 → r.jsonBody = none →
      (c.make_request method endpoint data use_proxy (.response r)).result =
        .error (.runtimeError ("Request failed: " ++ jsonDecodeErrorMsg))) ∧
    (∀ t, (c.make_request method endpoint data use_proxy t).dispatched.length = 1) ∧
    (∀ t err, (c.make_request method endpoint data use_proxy t).result = .error err →
      (c.make_request method endpoint data use_proxy t).logs ≠ []) := by
  refine ⟨?_, ?_, ?_, ?_, ?_, ?_, ?_, ?_, ?_⟩
  · intro e h1
    simp [OlympiaAPI.make_request, h1]
  · intro e h1 h2
    simp [OlympiaAPI.make_request, h1, h2]
  · intro e h1 h2
    simp [OlympiaAPI.make_request, h1, h2]
  · intro r h1 h2
    have hc1 : 400 ≤ r.statusCode ∧ r.statusCode < 500 := ⟨h1, h2⟩
    simp [OlympiaAPI.make_request, raiseForStatus, hc1]
  · intro r h1 h2
    have hc1 : ¬ (400 ≤ r.statusCode ∧ r.statusCode < 500) := by omega
    have hc2 : 500 ≤ r.statusCode ∧ r.statusCode < 600 := ⟨h1, h2⟩
    simp [OlympiaAPI.make_request, raiseForStatus, hc1, hc2]
  · intro r j h1 hb
    have hc1 : ¬ (400 ≤ r.statusCode ∧ r.statusCode < 500) := by omega
    have hc2 : ¬ (500 ≤ r.statusCode ∧ r.statusCode < 600) := by omega
    simp [OlympiaAPI.make_request, raiseForStatus, hc1, hc2, hb]
  · intro r h1 hb
    have hc1 : ¬ (400 ≤ r.statusCode ∧ r.statusCode < 500) := by omega
    have hc2 : ¬ (500 ≤ r.statusCode ∧ r.statusCode < 600) := by omega
    simp [OlympiaAPI.make_request, raiseForStatus, hc1, hc2, hb]
  · intro t
    rw [make_request_dispatched]
    rfl
  · intro t err h
    cases t with
    | exc e =>
      by_cases h1 : e.isConnectionError = true <;>
        by_cases h2 : e.isTimeout = true <;>
          simp [OlympiaAPI.make_request, h1, h2]
    | response r =>
      cases hrs : raiseForStatus r with
      | some m => simp [OlympiaAPI.make_request, hrs]
      | none =>
        cases hb : r.jsonBody with
        | some j =>
          simp [OlympiaAPI.make_request, hrs, hb] at h
        | none => simp [OlympiaAPI.make_request, hrs, hb]

/-- Witness for C1 (amended) at concrete inputs: a connection refusal maps
to the `ConnectionError` variant and a 400 response to the HTTP-rejection
`ValueError`. -/
theorem make_request_failure_classification_witness :
    (sampleClient.make_request "POST" "generate" none false
        (.exc (.connectionError "refused"))).result =
      .error (.connectionError ("Failed to connect: " ++
        TransportExc.msg (.connectionError "refused"))) ∧
    (sampleClient.make_request "POST" "generate" none false
        (.response ⟨400, "Bad Request", "u", "body", some (.obj [])⟩)).result =
      .error (.valueError ("HTTP error occurred: " ++
        (toString (400 : Nat) ++ " Client Error: " ++ "Bad Request"
          ++ " for url: " ++ "u"))) :=
  ⟨(make_request_failure_classification sampleClient "POST" "generate"
      none false).1 (.connectionError "refused") rfl,
   (make_request_failure_classification sampleClient "POST" "generate"
      none false).2.2.2.1 ⟨400, "Bad Request", "u", "body", some (.obj [])⟩
     (by decide) (by decide)⟩

/-- C1 counterexample: a 304 response is a non-2xx HTTP status, yet
`_make_request` does not raise the HTTP-rejection failure — it returns the
parsed body as-is, because `raise_for_status` only raises for 4xx/5xx. -/
theorem non2xx_not_always_rejected :
    (sampleClient.make_request "GET" "modeles" none false
        (.response ⟨304, "Not Modified", "https://api.olympia.bhub.cloud/modeles",
          "", some (.obj [("cached", .str "yes")])⟩)).result =
      .ok (.obj [("cached", .str "yes")]) ∧
    ¬ (200 ≤ 304 ∧ 304 < 300) :=
  ⟨rfl, by decide⟩

/-- C9: a connect timeout (an exception that is a subclass of both the
connection-error and the timeout exception classes) is classified by the
connection-error branch, which precedes the timeout branch, so it raises
the `ConnectionError` variant; the `TimeoutError` variant is raised only
for exceptions that are timeouts but not connection errors. -/
theorem connect_timeout_is_connection_failure (c : OlympiaAPI)
    (method endpoint : String) (data : Option Json) (use_proxy : Bool) :
    (∀ m, (c.make_request method endpoint data use_proxy
        (.exc (.connectTimeout m))).result =
      .error (.connectionError ("Failed to connect: " ++ m))) ∧
    (∀ m, TransportExc.isConnectionError (.connectTimeout m) = true ∧
      TransportExc.isTimeout (.connectTimeout m) = true) ∧
    (∀ (e : TransportExc) (msg : String),
      (c.make_request method endpoint data use_proxy (.exc e)).result =
        .error (.timeoutError msg) →
      e.isTimeout = true ∧ e.isConnectionError = false) := by
  refine ⟨?_, ?_, ?_⟩
  · intro m
    simp [OlympiaAPI.make_request, TransportExc.isConnectionError, TransportExc.msg]
  · intro m
    exact ⟨rfl, rfl⟩
  · intro e msg h
    cases e <;> simp [OlympiaAPI.make_request, TransportExc.isConnectionError,
      TransportExc.isTimeout] at h ⊢

/-- Witness for C9: a `ReadTimeout` (timeout, not a connection error) is the
shape of exception behind a raised `TimeoutError`. -/
theorem connect_timeout_is_connection_failure_witness :
    TransportExc.isTimeout (.readTimeout "slow") = true ∧
    TransportExc.isConnectionError (.readTimeout "slow") = false :=
  (connect_timeout_is_connection_failure sampleClient "POST" "generate"
      none false).2.2 (.readTimeout "slow") ("Request timed out: " ++ "slow") rfl

/-- C5: on a 2xx payload, `get_llm_models` (GET `modeles`) and
`get_embedding_models` (GET `embedding/models`) return the value at the
literal key `"modèles"` directly; when that key is absent the `KeyError`
propagates to the caller instead of being mapped to a typed failure. -/
theorem model_list_lookup (c : OlympiaAPI) (use_proxy : Bool) :
    (∀ (r : HttpResponse) (fields : List (String × Json)) (v : Json),
      200 ≤ r.statusCode → r.statusCode < 300 →
      r.jsonBody = some (.obj fields) → fields.lookup "modèles" = some v →
      (c.get_llm_models use_proxy (.response r)).result = .ok v ∧
      (c.get_embedding_models use_proxy (.response r)).result = .ok v) ∧
    (∀ (r : HttpResponse) (fields : List (String × Json)),
      200 ≤ r.statusCode → r.statusCode < 300 →
      r.jsonBody = some (.obj fields) → fields.lookup "modèles" = none →
      (c.get_llm_models use_proxy (.response r)).result =
        .error (.keyError "modèles") ∧
      (c.get_embedding_models use_proxy (.response r)).result =
        .error (.keyError "modèles")) ∧
    (∀ t, (c.get_llm_models use_proxy t).dispatched =
        [c.dispatchOf "GET" "modeles" none use_proxy] ∧
      (c.get_embedding_models use_proxy t).dispatched =
        [c.dispatchOf "GET" "embedding/models" none use_proxy]) := by
  have hok : ∀ (r : HttpResponse) (fields : List (String × Json)),
      200 ≤ r.statusCode → r.statusCode < 300 →
      r.jsonBody = some (.obj fields) →
      ∀ endpoint, (c.make_request "GET" endpoint none use_proxy
        (.response r)).result = .ok (.obj fields) := by
    intro r fields h1 h2 hb endpoint
    have hc1 : ¬ (400 ≤ r.statusCode ∧ r.statusCode < 500) := by omega
    have hc2 : ¬ (500 ≤ r.statusCode ∧ r.statusCode < 600) := by omega
    simp [OlympiaAPI.make_request, raiseForStatus, hc1, hc2, hb]
  refine ⟨?_, ?_, ?_⟩
  · intro r fields v h1 h2 hb hl
    constructor
    · unfold OlympiaAPI.get_llm_models
      simp [hok r fields h1 h2 hb, jsonGetItem, Except.bind, hl]
    · unfold OlympiaAPI.get_embedding_models
      simp [hok r fields h1 h2 hb, jsonGetItem, Except.bind, hl]
  · intro r fields h1 h2 hb hl
    constructor
    · unfold OlympiaAPI.get_llm_models
      simp [hok r fields h1 h2 hb, jsonGetItem, Except.bind, hl]
    · unfold OlympiaAPI.get_embedding_models
      simp [hok r fields h1 h2 hb, jsonGetItem, Except.bind, hl]
  · intro t
    constructor
    · unfold OlympiaAPI.get_llm_models
      simp [make_request_dispatched]
    · unfold OlympiaAPI.get_embedding_models
      simp [make_request_dispatched]

/-- Witness for C5: `{"modèles": ["m1", "m2"]}` yields `["m1", "m2"]`
from `get_llm_models`, and a payload without the key yields the propagated
`KeyError`. -/
theorem model_list_lookup_witness :
    (sampleClient.get_llm_models false (.response
        ⟨200, "OK", "https://api.olympia.bhub.cloud/modeles", "",
         some (.obj [("modèles", .arr [.str "m1", .str "m2"])])⟩)).result =
      .ok (.arr [.str "m1", .str "m2"]) ∧
    (sampleClient.get_llm_models false (.response
        ⟨200, "OK", "https://api.olympia.bhub.cloud/modeles", "",
         some (.obj [("models", .arr [.str "m1", .str "m2"])])⟩)).result =
      .error (.keyError "modèles") :=
  ⟨((model_list_lookup sampleClient false).1
      ⟨200, "OK", "https://api.olympia.bhub.cloud/modeles", "",
       some (.obj [("modèles", .arr [.str "m1", .str "m2"])])⟩
      [("modèles", .arr [.str "m1", .str "m2"])] (.arr [.str "m1", .str "m2"])
      (by decide) (by decide) rfl rfl).1,
   ((model_list_lookup sampleClient false).2.1
      ⟨200, "OK", "https://api.olympia.bhub.cloud/modeles", "",
       some (.obj [("models", .arr [.str "m1", .str "m2"])])⟩
      [("models", .arr [.str "m1", .str "m2"])]
      (by decide) (by decide) rfl rfl).1⟩

/-- C8 counterexample: for a 400 response whose body text is `BODYTEXT`,
the raised HTTP-rejection `ValueError` message carries the status but not
the response body text, and the body text is not in the diagnostic log line
either: `response.text if response else "No response"` tests
`Response.__bool__`, which is `response.ok` — false for every 4xx/5xx — so
the log line always ends in `No response`. -/
theorem rejected_error_lacks_body_text :
    (sampleClient.Chat "hi" (.response
        ⟨400, "Bad Request", "https://api.olympia.bhub.cloud/generate",
         "BODYTEXT", some (.obj [("error", .str "test_error")])⟩)).result =
      .error (.valueError
        "HTTP error occurred: 400 Client Error: Bad Request for url: https://api.olympia.bhub.cloud/generate") ∧
    strContains
      "HTTP error occurred: 400 Client Error: Bad Request for url: https://api.olympia.bhub.cloud/generate"
      "BODYTEXT" = false ∧
    (sampleClient.Chat "hi" (.response
        ⟨400, "Bad Request", "https://api.olympia.bhub.cloud/generate",
         "BODYTEXT", some (.obj [("error", .str "test_error")])⟩)).logs =
      ["HTTP error: 400 Client Error: Bad Request for url: https://api.olympia.bhub.cloud/generate, Response: No response"] ∧
    strContains
      "HTTP error: 400 Client Error: Bad Request for url: https://api.olympia.bhub.cloud/generate, Response: No response"
      "BODYTEXT" = false :=
  ⟨rfl, by decide, rfl, by decide⟩

/-- C8 (amended): on a 4xx/5xx response, the raised HTTP-rejection
`ValueError` carries the HTTP status (with reason and final URL) in its
message, but not the response body text; the body text appears nowhere —
the diagnostic log line's `Response:` field always reads `No response`,
because the logging conditional tests the response object's truthiness
(`response.ok`), which is false exactly when this branch runs. -/
theorem rejected_error_content (c : OlympiaAPI) (method endpoint : String)
    (data : Option Json) (use_proxy : Bool) :
    (∀ r : HttpResponse, 400 ≤ r.statusCode → r.statusCode < 500 →
      (c.make_request method endpoint data use_proxy (.response r)).result =
        .error (.valueError ("HTTP error occurred: " ++
          (toString r.statusCode ++ " Client Error: " ++ r.reason
            ++ " for url: " ++ r.url))) ∧
      (c.make_request method endpoint data use_proxy (.response r)).logs =
        ["HTTP error: " ++ (toString r.statusCode ++ " Client Error: "
          ++ r.reason ++ " for url: " ++ r.url) ++ ", Response: No response"]) ∧
    (∀ r : HttpResponse, 500 ≤ r.statusCode → r.statusCode < 600 →
      (c.make_request method endpoint data use_proxy (.response r)).result =
        .error (.valueError ("HTTP error occurred: " ++
          (toString r.statusCode ++ " Server Error: " ++ r.reason
            ++ " for url: " ++ r.url))) ∧
      (c.make_request method endpoint data use_proxy (.response r)).logs =
        ["HTTP error: " ++ (toString r.statusCode ++ " Server Error: "
          ++ r.reason ++ " for url: " ++ r.url) ++ ", Response: No response"]) := by
  constructor
  · intro r h1 h2
    have hc1 : 400 ≤ r.statusCode ∧ r.statusCode < 500 := ⟨h1, h2⟩
    have hb : responseBool r = false := by
      simp [responseBool]
      omega
    constructor <;>
      simp [OlympiaAPI.make_request, raiseForStatus, hc1, hb,
        String.append_assoc]
  · intro r h1 h2
    have hc1 : ¬ (400 ≤ r.statusCode ∧ r.statusCode < 500) := by omega
    have hc2 : 500 ≤ r.statusCode ∧ r.statusCode < 600 := ⟨h1, h2⟩
    have hb : responseBool r = false := by
      simp [responseBool]
      omega
    constructor <;>
      simp [OlympiaAPI.make_request, raiseForStatus, hc1, hc2, hb,
        String.append_assoc]

/-- Witness for C8 (amended) at a concrete 503 response with body text
`overloaded`: the raised message carries the status, and the log line ends
in `No response`, not the body text. -/
theorem rejected_error_content_witness :
    (sampleClient.make_request "POST" "generate" none false
        (.response ⟨503, "Service Unavailable", "u", "overloaded",
          none⟩)).result =
      .error (.valueError ("HTTP error occurred: " ++
        (toString (503 : Nat) ++ " Server Error: " ++ "Service Unavailable"
          ++ " for url: " ++ "u"))) ∧
    (sampleClient.make_request "POST" "generate" none false
        (.response ⟨503, "Service Unavailable", "u", "overloaded",
          none⟩)).logs =
      ["HTTP error: " ++ (toString (503 : Nat) ++ " Server Error: "
        ++ "Service Unavailable" ++ " for url: " ++ "u")
        ++ ", Response: No response"] :=
  (rejected_error_content sampleClient "POST" "generate" none false).2
    ⟨503, "Service Unavailable", "u", "overloaded", none⟩
    (by decide) (by decide)

end Olympia
